import Mathlib

/-!
Shallow embedding of the Session Guard subsystem of the Logistics Control
Tower frontend:

* `src/frontend/src/context/AuthContext.tsx` — the Session Store (the
  `AuthProvider` mount effect, `login`, `logout`, `isAuthenticated`);
* `src/unnamed/part_007` (`api/client.ts`) — the axios request interceptor
  (Request Authorizer) and response interceptor (Session Invalidator);
* `src/frontend/src/components/ProtectedRoute.tsx` — the Route Gate;
* `src/frontend/src/pages/Login.tsx` — the login error display.

Modelling conventions:
* `localStorage` is a pair of optional string slots (`auth_token`,
  `auth_user`); `getItem` returning `null` is `none`.
* JavaScript truthiness of a nullable string (`if (storedToken)`,
  `!!token`) is `jsTruthy`: `null` and `""` are falsy.
* The serialized identity string is modelled by its `JSON.parse` outcome:
  `IdentStr.ofUser u` stands for `JSON.stringify(u)` (which parses back to
  `u`; `JSON.stringify` of an object literal is never the empty string and
  is always truthy), `IdentStr.malformed s` stands for a string `s` on
  which `JSON.parse` throws.
* A promise outcome delivered to the caller is `Except ApiError α`:
  `Except.error e` is a rejected promise.
* `window.location.href = '/login'` is recorded in the `location` field;
  the full page load it triggers is `reloadOp` (fresh in-memory state, the
  mount effect re-run over the surviving durable storage).
-/

/-- The `User` type of `AuthContext.tsx` (matching the backend
`UserResponse` model). -/
structure User where
  id : Int
  username : String
  email : String
  first_name : String
  last_name : String
  role_code : String
  phone : Option String
deriving DecidableEq

/-- A string stored in the `auth_user` slot, classified by its
`JSON.parse` outcome: `ofUser u` is `JSON.stringify(u)`,
`malformed s` is a raw string `s` that `JSON.parse` rejects. -/
inductive IdentStr where
  | ofUser (u : User)
  | malformed (s : String)
deriving DecidableEq

/-- `JSON.parse` on a stored identity string: succeeds exactly on
well-formed serializations. -/
def parseIdent : IdentStr → Option User
  | IdentStr.ofUser u => some u
  | IdentStr.malformed _ => none

/-- The two independently addressable `localStorage` slots used by the
session code: `auth_token` and `auth_user`. -/
structure Storage where
  auth_token : Option String
  auth_user : Option IdentStr
deriving DecidableEq

/-- The in-memory React state of `AuthProvider`: `user`, `token`,
`isLoading` (declared in that order in the source). -/
structure Session where
  user : Option User
  token : Option String
  isLoading : Bool
deriving DecidableEq

/-- The state visible to the Session Guard: in-memory session, durable
storage, and the browser location (for the forced redirect). -/
structure AppState where
  mem : Session
  store : Storage
  location : String
deriving DecidableEq

/-- The in-memory state at process start: `useState(null)`, `useState(null)`,
`useState(true)`. -/
def freshSession : Session := { user := none, token := none, isLoading := true }

/-- JavaScript truthiness of a nullable string: `null` and `""` are falsy. -/
def jsTruthy : Option String → Bool
  | none => false
  | some s => !(s == "")

/-- Truthiness of the raw `auth_user` slot (`if (storedUser)`): `null` and
the empty string are falsy; a `JSON.stringify` output is always truthy. -/
def identTruthy : Option IdentStr → Bool
  | none => false
  | some (IdentStr.ofUser _) => true
  | some (IdentStr.malformed s) => !(s == "")

/-- The `AuthProvider` mount effect (`AuthContext.tsx`): read
`auth_token`; if truthy, set the in-memory token, then read `auth_user`;
if truthy, `JSON.parse` it — on success set the in-memory user, on a parse
error remove both `localStorage` slots (the in-memory token set just
before is left in place). In every case finish with `setIsLoading(false)`. -/
def initEffect (st : AppState) : AppState :=
  match st.store.auth_token with
  | some tok =>
    if tok = "" then
      { st with mem := { st.mem with isLoading := false } }
    else
      match st.store.auth_user with
      | some (IdentStr.ofUser u) =>
        { st with mem := { st.mem with token := some tok, user := some u, isLoading := false } }
      | some (IdentStr.malformed s) =>
        if s = "" then
          { st with mem := { st.mem with token := some tok, isLoading := false } }
        else
          { mem := { st.mem with token := some tok, isLoading := false },
            store := { auth_token := none, auth_user := none },
            location := st.location }
      | none =>
        { st with mem := { st.mem with token := some tok, isLoading := false } }
  | none => { st with mem := { st.mem with isLoading := false } }

/-- The success path of `login` in `AuthContext.tsx`: store the access
token and the serialized user in `localStorage`, then set both in-memory
values (the commit operation of the Session Store). -/
def loginSuccess (access_token : String) (userData : User) (st : AppState) : AppState :=
  { mem := { st.mem with token := some access_token, user := some userData },
    store := { auth_token := some access_token,
               auth_user := some (IdentStr.ofUser userData) },
    location := st.location }

/-- `logout` in `AuthContext.tsx`: remove both `localStorage` slots, set
both in-memory values to `null`. -/
def logout (st : AppState) : AppState :=
  { mem := { st.mem with token := none, user := none },
    store := { auth_token := none, auth_user := none },
    location := st.location }

/-- `isAuthenticated` in `AuthContext.tsx`: `!!token && !!user`. The token
is a nullable string, so `!!` is string truthiness; the user is a nullable
object, so `!!` is presence. -/
def isAuthenticated (s : Session) : Bool := jsTruthy s.token && s.user.isSome

/-- The error shape the frontend reads from a failed axios call:
`error.response` may be absent (transport failure), and when present
carries `status` and an optional `data.detail`. -/
structure ErrResp where
  status : Nat
  detail : Option String
deriving DecidableEq

/-- An axios error object as consumed by the interceptor and the login
form. -/
structure ApiError where
  response : Option ErrResp
deriving DecidableEq

/-- The 401 branch of the response interceptor in `api/client.ts`: remove
both `localStorage` slots and set `window.location.href = '/login'`. The
React in-memory state is not touched by the interceptor. -/
def handleUnauthorized (st : AppState) : AppState :=
  { mem := st.mem,
    store := { auth_token := none, auth_user := none },
    location := "/login" }

/-- The error handler of `api.interceptors.response.use`: if
`error.response?.status === 401` run the invalidation, then
`return Promise.reject(error)` — the rejected promise is handed to the
caller in every case. -/
def onResponseError (e : ApiError) (st : AppState) : AppState × Except ApiError Unit :=
  (if e.response.map ErrResp.status = some 401 then handleUnauthorized st else st,
   Except.error e)

/-- An outgoing request as seen by the request interceptor: a URL and an
optional `Authorization` header. -/
structure Request where
  url : String
  authorization : Option String
deriving DecidableEq

/-- The bearer-style header value the interceptor builds. -/
def bearerHeader (t : String) : String := "Bearer " ++ t

/-- The request interceptor of `api/client.ts`: read `auth_token` from
`localStorage`; if truthy, set `config.headers.Authorization` to the
bearer-prefixed token; otherwise return the config unchanged. -/
def onRequest (store : Storage) (req : Request) : Request :=
  match store.auth_token with
  | some t => if t = "" then req else { req with authorization := some (bearerHeader t) }
  | none => req

/-- The generic fallback message of `Login.tsx`. -/
def genericLoginFailureMessage : String := "Login failed. Please try again."

/-- The message computed by the `catch` branch of `onFinish` in
`Login.tsx`: `err.response?.data?.detail || 'Login failed. ...'` — the
generic message is used when the chain yields `undefined` or a falsy
string (the empty string). -/
def loginErrorMessage (e : ApiError) : String :=
  match e.response with
  | some r =>
    match r.detail with
    | some d => if d = "" then genericLoginFailureMessage else d
    | none => genericLoginFailureMessage
  | none => genericLoginFailureMessage

/-- The `catch` branch of `login` in `AuthContext.tsx` rethrows the error
unchanged (`throw error`). -/
def loginRethrow (e : ApiError) : ApiError := e

/-- The message the user sees when a login attempt fails: the error
propagated unchanged by `AuthContext.login`, rendered by `Login.tsx`. -/
def displayedLoginError (e : ApiError) : String := loginErrorMessage (loginRethrow e)

/-- The full page load triggered by assigning `window.location.href`: the
in-memory React state is recreated from scratch and the mount effect
re-runs over the surviving durable storage. -/
def reloadOp (st : AppState) : AppState := initEffect { st with mem := freshSession }

/-- The three observable states of the Route Gate
(`ProtectedRoute.tsx`). -/
inductive GateState where
  | checking
  | denied
  | granted
deriving DecidableEq

/-- `ProtectedRoute.tsx`: spinner while `isLoading`, redirect to `/login`
when not authenticated, render the protected outlet otherwise. -/
def routeGate (s : Session) : GateState :=
  if s.isLoading then GateState.checking
  else if !(isAuthenticated s) then GateState.denied
  else GateState.granted

/-- The operations of the Session Guard that can fire during a run: the
mount effect, a successful login (commit), a failed login (state
unchanged, error rethrown), logout (clear), the 401 invalidation, and the
page reload a forced redirect causes. -/
inductive Op where
  | initOp
  | loginOk (t : String) (u : User)
  | loginFail
  | logoutOp
  | unauthorized
  | reload
deriving DecidableEq

/-- Apply one operation to the state. -/
def applyOp (o : Op) (st : AppState) : AppState :=
  match o with
  | Op.initOp => initEffect st
  | Op.loginOk t u => loginSuccess t u st
  | Op.loginFail => st
  | Op.logoutOp => logout st
  | Op.unauthorized => handleUnauthorized st
  | Op.reload => reloadOp st

/-- Run a list of operations left to right. -/
def runOps (l : List Op) (st : AppState) : AppState :=
  l.foldl (fun s o => applyOp o s) st

/-- States reachable from a process start over an arbitrary durable
storage (storage persists across processes and is not owned exclusively
by this code, so the start store is unconstrained). -/
inductive Reaches : AppState → Prop where
  | start (store : Storage) (loc : String) :
      Reaches { mem := freshSession, store := store, location := loc }
  | step {st : AppState} (h : Reaches st) (o : Op) : Reaches (applyOp o st)

/-- The in-memory pairing invariant: the identity is present iff the
credential is present. -/
def memInv (s : Session) : Bool := s.token.isSome == s.user.isSome

/-- A durable store is synchronized when a truthy credential slot is
accompanied by a parseable identity slot. -/
def storeSync (st : Storage) : Bool :=
  match st.auth_token with
  | none => true
  | some t =>
    if t = "" then true
    else
      match st.auth_user with
      | some (IdentStr.ofUser _) => true
      | _ => false

/-- States reachable from a process start whose durable storage is
synchronized. -/
inductive ReachesSync : AppState → Prop where
  | start (store : Storage) (loc : String) (hs : storeSync store = true) :
      ReachesSync { mem := freshSession, store := store, location := loc }
  | step {st : AppState} (h : ReachesSync st) (o : Op) : ReachesSync (applyOp o st)

/-- A sample identity used for concrete witnesses. -/
def sampleUser : User :=
  { id := 1, username := "alice", email := "alice@example.com",
    first_name := "Alice", last_name := "Ops", role_code := "ADMIN", phone := none }

/-! ### Helper lemmas -/

theorem initEffect_isLoading (st : AppState) : (initEffect st).mem.isLoading = false := by
  obtain ⟨⟨u, t, il⟩, ⟨atok, auser⟩, loc⟩ := st
  rcases atok with _ | tok
  · rfl
  · by_cases htok : tok = ""
    · simp [initEffect, htok]
    · rcases auser with _ | iu
      · simp [initEffect, htok]
      · rcases iu with u2 | s
        · simp [initEffect, htok]
        · by_cases hstr : s = "" <;> simp [initEffect, htok, hstr]

theorem applyOp_isLoading (o : Op) (st : AppState) (h : st.mem.isLoading = false) :
    (applyOp o st).mem.isLoading = false := by
  cases o with
  | initOp => exact initEffect_isLoading st
  | loginOk t u => simpa [applyOp, loginSuccess] using h
  | loginFail => exact h
  | logoutOp => simpa [applyOp, logout] using h
  | unauthorized => simpa [applyOp, handleUnauthorized] using h
  | reload => exact initEffect_isLoading _

theorem runOps_isLoading (l : List Op) (st : AppState) (h : st.mem.isLoading = false) :
    (runOps l st).mem.isLoading = false := by
  induction l generalizing st with
  | nil => exact h
  | cons o tl ih => exact ih _ (applyOp_isLoading o st h)

theorem routeGate_checking_iff (s : Session) :
    routeGate s = GateState.checking ↔ s.isLoading = true := by
  obtain ⟨u, t, il⟩ := s
  cases il <;> simp only [routeGate] <;> simp
  split <;> simp

theorem initEffect_inv (st : AppState) (hm : memInv st.mem = true)
    (hs : storeSync st.store = true) :
    memInv (initEffect st).mem = true ∧ storeSync (initEffect st).store = true := by
  obtain ⟨⟨u, t, il⟩, ⟨atok, auser⟩, loc⟩ := st
  rcases atok with _ | tok
  · exact ⟨hm, hs⟩
  · by_cases htok : tok = ""
    · subst htok
      exact ⟨hm, hs⟩
    · rcases auser with _ | iu
      · exfalso
        simp [storeSync, htok] at hs
      · rcases iu with u2 | s
        · simp [initEffect, htok, memInv, storeSync]
        · exfalso
          simp [storeSync, htok] at hs

theorem applyOp_inv (o : Op) (st : AppState) (hm : memInv st.mem = true)
    (hs : storeSync st.store = true) :
    memInv (applyOp o st).mem = true ∧ storeSync (applyOp o st).store = true := by
  cases o with
  | initOp => exact initEffect_inv st hm hs
  | loginOk t u =>
    constructor
    · simp [applyOp, loginSuccess, memInv]
    · by_cases ht : t = "" <;> simp [applyOp, loginSuccess, storeSync, ht]
  | loginFail => exact ⟨hm, hs⟩
  | logoutOp => exact ⟨by simp [applyOp, logout, memInv], by simp [applyOp, logout, storeSync]⟩
  | unauthorized =>
    exact ⟨by simpa [applyOp, handleUnauthorized] using hm,
           by simp [applyOp, handleUnauthorized, storeSync]⟩
  | reload =>
    exact initEffect_inv { st with mem := freshSession } (by rfl) hs

/-! ### Claim theorems -/

/-- Claim C1, as stated, is false on the code: a state reached by running
the mount effect over a durable store holding a credential but no identity
slot has the in-memory credential present and the in-memory identity
absent. The in-memory pairing invariant fails there, so the mount effect
does not preserve it. -/
theorem session_pair_inv_counterexample :
    Reaches (applyOp Op.initOp
      { mem := freshSession,
        store := { auth_token := some "tok", auth_user := none },
        location := "/" }) ∧
    (applyOp Op.initOp
      { mem := freshSession,
        store := { auth_token := some "tok", auth_user := none },
        location := "/" }).mem.token = some "tok" ∧
    (applyOp Op.initOp
      { mem := freshSession,
        store := { auth_token := some "tok", auth_user := none },
        location := "/" }).mem.user = none ∧
    memInv (applyOp Op.initOp
      { mem := freshSession,
        store := { auth_token := some "tok", auth_user := none },
        location := "/" }).mem = false :=
  ⟨Reaches.step (Reaches.start _ _) _, by decide, by decide, by decide⟩

/-- Claim C1 (amended): at every session state reachable from a process
start whose durable storage is synchronized (a truthy credential slot is
accompanied by a parseable identity slot), the in-memory identity is
present iff the in-memory credential is present, and every operation
(mount effect, login commit, logout clear, 401 invalidation, reload)
preserves this invariant. -/
theorem session_pair_inv_of_syncStore (st : AppState) (h : ReachesSync st) :
    memInv st.mem = true := by
  have H : memInv st.mem = true ∧ storeSync st.store = true := by
    induction h with
    | start store loc hs => exact ⟨rfl, hs⟩
    | step h o ih => exact applyOp_inv o _ ih.1 ih.2
  exact H.1

/-- Witness for C1: the invariant holds at a concrete reachable state. -/
theorem session_pair_inv_of_syncStore_witness :
    memInv (applyOp (Op.loginOk "tok1" sampleUser)
      { mem := freshSession, store := { auth_token := none, auth_user := none },
        location := "/" }).mem = true :=
  session_pair_inv_of_syncStore _
    (ReachesSync.step
      (ReachesSync.start { auth_token := none, auth_user := none } "/" rfl)
      (Op.loginOk "tok1" sampleUser))

/-- Claim C2, as stated, is false on the code: for a response carrying the
401 signal the interceptor clears the durable session and redirects, but
it still returns `Promise.reject(error)`, so the error is surfaced as an
exception to the code that issued the request. -/
theorem unauthorized_rejection_counterexample :
    (ApiError.mk (some (ErrResp.mk 401 none))).response.map ErrResp.status = some 401 ∧
    (onResponseError (ApiError.mk (some (ErrResp.mk 401 none)))
      { mem := freshSession, store := { auth_token := some "tok", auth_user := none },
        location := "/" }).2 =
      Except.error (ApiError.mk (some (ErrResp.mk 401 none))) :=
  ⟨rfl, rfl⟩

/-- Claim C2 (amended): for every request whose response carries the 401
signal, the Session Invalidator recovers locally — it clears the durable
session and redirects to the login surface — and the error is additionally
propagated (as a rejected promise) to the code that issued the request. -/
theorem unauthorized_recovery_and_propagation (e : ApiError) (st : AppState)
    (r : ErrResp) (hr : e.response = some r) (h401 : r.status = 401) :
    (onResponseError e st).1.store = { auth_token := none, auth_user := none } ∧
    (onResponseError e st).1.location = "/login" ∧
    (onResponseError e st).2 = Except.error e := by
  simp [onResponseError, hr, h401, handleUnauthorized]

/-- Witness for C2 (amended) at a concrete 401 error and state. -/
theorem unauthorized_recovery_and_propagation_witness :
    (onResponseError (ApiError.mk (some (ErrResp.mk 401 (some "expired"))))
      { mem := { user := some sampleUser, token := some "tok1", isLoading := false },
        store := { auth_token := some "tok1",
                   auth_user := some (IdentStr.ofUser sampleUser) },
        location := "/" }).1.store = { auth_token := none, auth_user := none } ∧
    (onResponseError (ApiError.mk (some (ErrResp.mk 401 (some "expired"))))
      { mem := { user := some sampleUser, token := some "tok1", isLoading := false },
        store := { auth_token := some "tok1",
                   auth_user := some (IdentStr.ofUser sampleUser) },
        location := "/" }).1.location = "/login" ∧
    (onResponseError (ApiError.mk (some (ErrResp.mk 401 (some "expired"))))
      { mem := { user := some sampleUser, token := some "tok1", isLoading := false },
        store := { auth_token := some "tok1",
                   auth_user := some (IdentStr.ofUser sampleUser) },
        location := "/" }).2 =
      Except.error (ApiError.mk (some (ErrResp.mk 401 (some "expired")))) :=
  unauthorized_recovery_and_propagation _ _ (ErrResp.mk 401 (some "expired")) rfl rfl

/-- Claim C3: whenever a response carrying the 401 signal is received, at
any state, the interceptor forces navigation to the login surface, and
once the forced navigation completes (the page reload re-runs the mount
effect over the cleared storage) `isAuthenticated()` is false. -/
theorem unauthorized_deauthenticates (e : ApiError) (st : AppState)
    (r : ErrResp) (hr : e.response = some r) (h401 : r.status = 401) :
    isAuthenticated (reloadOp (onResponseError e st).1).mem = false ∧
    (reloadOp (onResponseError e st).1).location = "/login" := by
  have hcond : e.response.map ErrResp.status = some 401 := by
    simp [hr, h401]
  constructor
  · simp [onResponseError, hcond, handleUnauthorized, reloadOp, initEffect,
      freshSession, isAuthenticated, jsTruthy]
  · simp [onResponseError, hcond, handleUnauthorized, reloadOp, initEffect, freshSession]

/-- Witness for C3 at a concrete 401 error and a fully authenticated
state. -/
theorem unauthorized_deauthenticates_witness :
    isAuthenticated (reloadOp (onResponseError
      (ApiError.mk (some (ErrResp.mk 401 none)))
      { mem := { user := some sampleUser, token := some "tok1", isLoading := false },
        store := { auth_token := some "tok1",
                   auth_user := some (IdentStr.ofUser sampleUser) },
        location := "/" }).1).mem = false ∧
    (reloadOp (onResponseError
      (ApiError.mk (some (ErrResp.mk 401 none)))
      { mem := { user := some sampleUser, token := some "tok1", isLoading := false },
        store := { auth_token := some "tok1",
                   auth_user := some (IdentStr.ofUser sampleUser) },
        location := "/" }).1).location = "/login" :=
  unauthorized_deauthenticates _ _ (ErrResp.mk 401 none) rfl rfl

/-- Claim C4: if a credential (a truthy token, i.e. a nonempty string) is
present in durable storage at dispatch time, the outgoing request carries
an authorization header equal to the bearer-prefixed credential and is
otherwise unchanged; if no credential is present (slot absent or empty),
the request is dispatched unmodified. -/
theorem request_authorizer_attaches (store : Storage) (req : Request) :
    (∀ t, store.auth_token = some t → t ≠ "" →
      onRequest store req = { req with authorization := some (bearerHeader t) }) ∧
    (jsTruthy store.auth_token = false → onRequest store req = req) := by
  constructor
  · intro t ht hne
    simp [onRequest, ht, hne]
  · intro hfalse
    rcases hst : store.auth_token with _ | t
    · simp [onRequest, hst]
    · rw [hst] at hfalse
      simp [jsTruthy] at hfalse
      simp [onRequest, hst, hfalse]

/-- Witness for C4: a concrete request with and without a stored
credential. -/
theorem request_authorizer_attaches_witness :
    onRequest { auth_token := some "tok1", auth_user := none }
      { url := "/api/vendors", authorization := none } =
      { url := "/api/vendors", authorization := some (bearerHeader "tok1") } ∧
    onRequest { auth_token := none, auth_user := none }
      { url := "/api/vendors", authorization := none } =
      { url := "/api/vendors", authorization := none } :=
  ⟨(request_authorizer_attaches { auth_token := some "tok1", auth_user := none }
      { url := "/api/vendors", authorization := none }).1 "tok1" rfl (by decide),
   (request_authorizer_attaches { auth_token := none, auth_user := none }
      { url := "/api/vendors", authorization := none }).2 rfl⟩

/-- Claim C5: committing an identity and a credential (a nonempty token)
to the store from a resolved session and then re-running the mount effect
over the same durable storage with fresh in-memory state (a simulated
process restart) yields a state identical to the one before the restart. -/
theorem commit_restart_roundTrip (st : AppState) (t : String) (u : User)
    (ht : t ≠ "") (hl : st.mem.isLoading = false) :
    reloadOp (loginSuccess t u st) = loginSuccess t u st := by
  obtain ⟨⟨mu, mt, il⟩, sto, loc⟩ := st
  simp only at hl
  subst hl
  simp [reloadOp, initEffect, loginSuccess, freshSession, ht]

/-- Witness for C5 at a concrete identity, credential and start state. -/
theorem commit_restart_roundTrip_witness :
    reloadOp (loginSuccess "tok1" sampleUser
      { mem := { user := none, token := none, isLoading := false },
        store := { auth_token := none, auth_user := none }, location := "/" }) =
    loginSuccess "tok1" sampleUser
      { mem := { user := none, token := none, isLoading := false },
        store := { auth_token := none, auth_user := none }, location := "/" } :=
  commit_restart_roundTrip _ "tok1" sampleUser (by decide) rfl

/-- Claim C6: if persisted storage holds the credential `"tokX"` and a
malformed (non-JSON, hence nonempty) identity string, then after the mount
effect both durable slots are empty and `isAuthenticated()` is false. -/
theorem malformed_identity_discards_both (s : String) (hs : s ≠ "") (loc : String) :
    (initEffect
      { mem := freshSession,
        store := { auth_token := some "tokX", auth_user := some (IdentStr.malformed s) },
        location := loc }).store = { auth_token := none, auth_user := none } ∧
    isAuthenticated (initEffect
      { mem := freshSession,
        store := { auth_token := some "tokX", auth_user := some (IdentStr.malformed s) },
        location := loc }).mem = false := by
  constructor
  · simp [initEffect, hs, freshSession]
  · simp [initEffect, hs, freshSession, isAuthenticated, jsTruthy]

/-- Witness for C6 at a concrete malformed identity string. -/
theorem malformed_identity_discards_both_witness :
    (initEffect
      { mem := freshSession,
        store := { auth_token := some "tokX",
                   auth_user := some (IdentStr.malformed "not json") },
        location := "/" }).store = { auth_token := none, auth_user := none } ∧
    isAuthenticated (initEffect
      { mem := freshSession,
        store := { auth_token := some "tokX",
                   auth_user := some (IdentStr.malformed "not json") },
        location := "/" }).mem = false :=
  malformed_identity_discards_both "not json" (by decide) "/"

/-- Claim C7, as stated, is false on the code: a failure payload that does
carry a `detail` field whose value is the empty string still produces the
generic fallback message, because `detail || fallback` treats the empty
string as falsy. -/
theorem login_error_message_counterexample :
    (ApiError.mk (some (ErrResp.mk 401 (some "")))).response.bind ErrResp.detail =
      some "" ∧
    displayedLoginError (ApiError.mk (some (ErrResp.mk 401 (some "")))) =
      genericLoginFailureMessage :=
  ⟨rfl, rfl⟩

/-- Claim C7 (amended): if a login attempt fails and the backend payload
carries a nonempty detail string (such as "Invalid credentials"), the
caller observes exactly that detail; the generic fallback message is shown
exactly when the payload carries no detail field or an empty one. -/
theorem login_error_message_detail (e : ApiError) :
    (∀ r d, e.response = some r → r.detail = some d → d ≠ "" →
      displayedLoginError e = d) ∧
    (e.response.bind ErrResp.detail = none ∨ e.response.bind ErrResp.detail = some "" →
      displayedLoginError e = genericLoginFailureMessage) := by
  constructor
  · intro r d hr hd hne
    simp [displayedLoginError, loginRethrow, loginErrorMessage, hr, hd, hne]
  · intro hcase
    rcases he : e.response with _ | r
    · simp [displayedLoginError, loginRethrow, loginErrorMessage, he]
    · rw [he] at hcase
      simp only [Option.some_bind] at hcase
      rcases hd : r.detail with _ | d
      · simp [displayedLoginError, loginRethrow, loginErrorMessage, he, hd]
      · rw [hd] at hcase
        simp at hcase
        simp [displayedLoginError, loginRethrow, loginErrorMessage, he, hd, hcase]

/-- Witness for C7 (amended): the concrete "Invalid credentials" scenario
and a detail-free payload. -/
theorem login_error_message_detail_witness :
    displayedLoginError (ApiError.mk (some (ErrResp.mk 401 (some "Invalid credentials")))) =
      "Invalid credentials" ∧
    displayedLoginError (ApiError.mk none) = genericLoginFailureMessage :=
  ⟨(login_error_message_detail
      (ApiError.mk (some (ErrResp.mk 401 (some "Invalid credentials"))))).1
      (ErrResp.mk 401 (some "Invalid credentials")) "Invalid credentials" rfl rfl
      (by decide),
   (login_error_message_detail (ApiError.mk none)).2 (Or.inl rfl)⟩

/-- Claim C8: `logout()` is idempotent — for every session state, calling
it twice in a row leaves exactly the same cleared state (in memory and in
durable storage) as calling it once. -/
theorem logout_idempotent (st : AppState) : logout (logout st) = logout st := rfl

/-- Claim C9: once the Route Gate has left the `checking` state it never
returns to it within the same process lifetime: after any sequence of
operations (including login, logout and the 401 invalidation) the gate is
still not `checking`. -/
theorem route_gate_never_rechecks (l : List Op) (st : AppState)
    (h : routeGate st.mem ≠ GateState.checking) :
    routeGate (runOps l st).mem ≠ GateState.checking := by
  rw [Ne, routeGate_checking_iff] at h ⊢
  simp only [Bool.not_eq_true] at h ⊢
  exact runOps_isLoading l st h

/-- Witness for C9: a resolved, logged-out state stays out of `checking`
through a logout and a login. -/
theorem route_gate_never_rechecks_witness :
    routeGate (runOps [Op.logoutOp, Op.loginOk "tok1" sampleUser]
      { mem := { user := none, token := none, isLoading := false },
        store := { auth_token := none, auth_user := none },
        location := "/" }).mem ≠ GateState.checking :=
  route_gate_never_rechecks [Op.logoutOp, Op.loginOk "tok1" sampleUser] _ (by decide)

/-- Claim C10: when the mount effect finds a persisted credential (a
truthy token) but the identity slot is simply absent, the credential is
retained in memory and in durable storage while `isAuthenticated()` is
false; a malformed (nonempty, non-JSON) identity, by contrast, causes both
persisted slots to be discarded. -/
theorem orphan_credential_retained (t : String) (ht : t ≠ "") (s : String)
    (hs : s ≠ "") (loc : String) :
    ((initEffect
      { mem := freshSession,
        store := { auth_token := some t, auth_user := none },
        location := loc }).mem.token = some t ∧
     (initEffect
      { mem := freshSession,
        store := { auth_token := some t, auth_user := none },
        location := loc }).store.auth_token = some t ∧
     (initEffect
      { mem := freshSession,
        store := { auth_token := some t, auth_user := none },
        location := loc }).mem.user = none ∧
     isAuthenticated (initEffect
      { mem := freshSession,
        store := { auth_token := some t, auth_user := none },
        location := loc }).mem = false) ∧
    ((initEffect
      { mem := freshSession,
        store := { auth_token := some t, auth_user := some (IdentStr.malformed s) },
        location := loc }).store.auth_token = none ∧
     (initEffect
      { mem := freshSession,
        store := { auth_token := some t, auth_user := some (IdentStr.malformed s) },
        location := loc }).store.auth_user = none) := by
  refine ⟨⟨?_, ?_, ?_, ?_⟩, ?_, ?_⟩ <;>
    simp [initEffect, ht, hs, freshSession, isAuthenticated, jsTruthy]

/-- Witness for C10 at a concrete credential and malformed string. -/
theorem orphan_credential_retained_witness :
    ((initEffect
      { mem := freshSession,
        store := { auth_token := some "tokX", auth_user := none },
        location := "/" }).mem.token = some "tokX" ∧
     (initEffect
      { mem := freshSession,
        store := { auth_token := some "tokX", auth_user := none },
        location := "/" }).store.auth_token = some "tokX" ∧
     (initEffect
      { mem := freshSession,
        store := { auth_token := some "tokX", auth_user := none },
        location := "/" }).mem.user = none ∧
     isAuthenticated (initEffect
      { mem := freshSession,
        store := { auth_token := some "tokX", auth_user := none },
        location := "/" }).mem = false) ∧
    ((initEffect
      { mem := freshSession,
        store := { auth_token := some "tokX",
                   auth_user := some (IdentStr.malformed "oops") },
        location := "/" }).store.auth_token = none ∧
     (initEffect
      { mem := freshSession,
        store := { auth_token := some "tokX",
                   auth_user := some (IdentStr.malformed "oops") },
        location := "/" }).store.auth_user = none) :=
  orphan_credential_retained "tokX" (by decide) "oops" (by decide) "/"
